import Mathlib

/-!
# Ward Protocol — verification of the spec's claims against the SDK source

Shallow embedding of the Ward Protocol python SDK
(`sdk/python/ward/`): the pure loss-waterfall and share-value
calculators (`utils/calculations.py`), the ledger-object models
(`models/vault.py`, `models/loan.py`, `models/loan_broker.py`), the
risk-tier classifier (`premium.py`), the claim validator
(`validator.py` with the database operations of `database.py`), the
escrow controller (`escrow.py`) and the insurance-pool capital ledger
(`pool.py`).

Conventions of the embedding:
* python `int` money amounts are `ℤ`; rate fields that the source holds
  as python floats (basis points divided by 10000) are `ℚ`, with float
  rounding abstracted as exact rational arithmetic;
* python `int(x)` truncation toward zero is `pytrunc`;
* a python float that can be `float('inf')` (a coverage ratio with zero
  required cover) is `Option ℚ` with `none` standing for `+∞`;
* code that can raise is `Option`/`Except`; external I/O (the XRPL
  client, `asyncpg`) is modelled on its success path, and the database
  is an explicit in-memory state threaded through the operations.
-/

namespace Ward

/-- Python `int(x)` applied to a rational: truncation toward zero
(`int(3.7) = 3`, `int(-3.7) = -3`). -/
def pytrunc (q : ℚ) : ℤ :=
  if 0 ≤ q then ⌊q⌋ else ⌈q⌉

/-- Result dictionary of `calculate_vault_loss`
(`utils/calculations.py`, lines 62-67). -/
structure VaultLossResult where
  default_amount : ℤ
  minimum_cover : ℤ
  default_covered : ℤ
  vault_loss : ℤ
deriving DecidableEq, Repr

/-- `calculate_vault_loss` (`utils/calculations.py`, lines 13-67).
The body performs no input validation and has no failure path:

    default_amount = principal_outstanding + interest_outstanding
    minimum_cover = int(debt_total * cover_rate_minimum)
    default_covered = min(int(minimum_cover * cover_rate_liquidation),
                          default_amount, cover_available)
    vault_loss = default_amount - default_covered
-/
def calculate_vault_loss (principal_outstanding interest_outstanding
    debt_total cover_available : ℤ)
    (cover_rate_minimum cover_rate_liquidation : ℚ) : VaultLossResult :=
  let default_amount := principal_outstanding + interest_outstanding
  let minimum_cover := pytrunc ((debt_total : ℚ) * cover_rate_minimum)
  let default_covered :=
    min (pytrunc ((minimum_cover : ℚ) * cover_rate_liquidation))
      (min default_amount cover_available)
  { default_amount := default_amount
    minimum_cover := minimum_cover
    default_covered := default_covered
    vault_loss := default_amount - default_covered }

/-- Result dictionary of `calculate_share_value_impact`
(`utils/calculations.py`, lines 110-115). -/
structure ShareValueImpact where
  share_value_before : ℚ
  share_value_after : ℚ
  loss_per_share : ℚ
  loss_percentage : ℚ
deriving DecidableEq, Repr

/-- `calculate_share_value_impact` (`utils/calculations.py`, lines
70-115).  The body divides by `shares_total` with no guard, so a call
with `shares_total == 0` raises `ZeroDivisionError`: that failure is
`none`.  `loss_percentage` falls back to `0` when
`value_before > 0` fails, exactly as the source's conditional
expression does. -/
def calculate_share_value_impact (assets_total_before loss_unrealized
    shares_total vault_loss : ℤ) : Option ShareValueImpact :=
  if shares_total = 0 then none
  else
    let value_before :=
      (((assets_total_before : ℚ) - (loss_unrealized : ℚ)) / (shares_total : ℚ))
        / 1000000
    let assets_total_after := assets_total_before - vault_loss
    let value_after :=
      (((assets_total_after : ℚ) - (loss_unrealized : ℚ)) / (shares_total : ℚ))
        / 1000000
    let loss_per_share := value_before - value_after
    let loss_percentage :=
      if 0 < value_before then loss_per_share / value_before * 100 else 0
    some { share_value_before := value_before
           share_value_after := value_after
           loss_per_share := loss_per_share
           loss_percentage := loss_percentage }

/-- `Vault` ledger-object model (`models/vault.py`, lines 7-104);
the `asset` dict and `share_mpt_id` are identification data irrelevant
to every claim and kept as opaque strings. -/
structure Vault where
  vault_id : String
  owner : String
  account : String
  assets_total : ℤ
  assets_available : ℤ
  loss_unrealized : ℤ
  shares_total : ℤ
  share_mpt_id : String
  ledger_index : ℤ
deriving DecidableEq, Repr

/-- `Vault.real_vault_value` (`models/vault.py`, lines 25-33). -/
def Vault.real_vault_value (v : Vault) : ℤ :=
  v.assets_total - v.loss_unrealized

/-- `Vault.share_value` (`models/vault.py`, lines 35-51): guarded, a
vault with `shares_total == 0` yields `0.0` rather than dividing. -/
def Vault.share_value (v : Vault) : ℚ :=
  if v.shares_total = 0 then 0
  else ((v.real_vault_value : ℚ) / (v.shares_total : ℚ)) / 1000000

/-- `Vault.utilization_rate` (`models/vault.py`, lines 53-65): guarded
at `assets_total == 0`. -/
def Vault.utilization_rate (v : Vault) : ℚ :=
  if v.assets_total = 0 then 0
  else ((v.assets_total - v.assets_available : ℤ) : ℚ) / (v.assets_total : ℚ)

/-- `Vault.impairment_ratio` (`models/vault.py`, lines 67-78): guarded
at `assets_total == 0`. -/
def Vault.impairment_ratio (v : Vault) : ℚ :=
  if v.assets_total = 0 then 0
  else (v.loss_unrealized : ℚ) / (v.assets_total : ℚ)

/-- `Loan.LSF_LOAN_DEFAULT` (`models/loan.py`, line 29). -/
def LSF_LOAN_DEFAULT : ℕ := 0x00010000

/-- `Loan` ledger-object model (`models/loan.py`, lines 8-46);
`next_payment_due_date`, `grace_period` and `ledger_index` play no role
in any claim and are omitted. -/
structure Loan where
  loan_id : String
  loan_broker_id : String
  borrower : String
  principal_outstanding : ℤ
  total_value_outstanding : ℤ
  interest_outstanding : ℤ
  management_fee_outstanding : ℤ
  flags : ℕ
deriving DecidableEq, Repr

/-- `Loan.is_defaulted` (`models/loan.py`, lines 33-36):
`bool(self.flags & self.LSF_LOAN_DEFAULT)`. -/
def Loan.is_defaulted (l : Loan) : Bool :=
  decide (l.flags &&& LSF_LOAN_DEFAULT ≠ 0)

/-- `LoanBroker` ledger-object model (`models/loan_broker.py`, lines
7-51).  `cover_rate_minimum` and `cover_rate_liquidation` are floats in
the source (basis points / 10000), rationals here. -/
structure LoanBroker where
  loan_broker_id : String
  owner : String
  vault_id : String
  debt_total : ℤ
  debt_maximum : ℤ
  cover_available : ℤ
  cover_rate_minimum : ℚ
  cover_rate_liquidation : ℚ
  management_fee_rate : ℤ
deriving DecidableEq, Repr

/-- `LoanBroker.minimum_cover_required` (`models/loan_broker.py`,
lines 26-29): `int(self.debt_total * self.cover_rate_minimum)`. -/
def LoanBroker.minimum_cover_required (b : LoanBroker) : ℤ :=
  pytrunc ((b.debt_total : ℚ) * b.cover_rate_minimum)

/-- `LoanBroker.coverage_ratio` (`models/loan_broker.py`, lines 41-51):
the source returns `float('inf')` when `minimum_cover_required == 0`;
`none` stands for that infinity. -/
def LoanBroker.coverage_ratio (b : LoanBroker) : Option ℚ :=
  if b.minimum_cover_required = 0 then none
  else some ((b.cover_available : ℚ) / (b.minimum_cover_required : ℚ))

/-! ## Risk tier classifier (`premium.py`) -/

/-- The five risk tiers of `PremiumCalculator.BASE_RATES`
(`premium.py`, lines 33-39). -/
inductive RiskTier where
  | safest
  | safe
  | moderate
  | elevated
  | high
deriving DecidableEq, Repr

/-- `PremiumCalculator.BASE_RATES` (`premium.py`, lines 33-39). -/
def BASE_RATES : RiskTier → ℚ
  | .safest => 1 / 100
  | .safe => 2 / 100
  | .moderate => 3 / 100
  | .elevated => 4 / 100
  | .high => 5 / 100

/-- A float comparison `r >= c` where `r` may be `float('inf')`
(`none`): infinity compares greater-or-equal to everything. -/
def ratioGe (r : Option ℚ) (c : ℚ) : Bool :=
  match r with
  | none => true
  | some q => decide (c ≤ q)

/-- `PremiumCalculator._get_utilization` (`premium.py`, lines 218-229):
guarded at `vault.assets_total == 0`, otherwise
`(assets_total - assets_available) / assets_total`.  The
`loan_broker` parameter of the source is unused by its body. -/
def get_utilization (vault : Vault) : ℚ :=
  if vault.assets_total = 0 then 0
  else ((vault.assets_total - vault.assets_available : ℤ) : ℚ)
    / (vault.assets_total : ℚ)

/-- `PremiumCalculator._calculate_base_rate` (`premium.py`, lines
121-147): the `if/elif` chain over `(coverage_ratio, impairment_ratio,
utilization)` with first match winning, returning
`(base_rate, risk_tier)`. -/
def calculate_base_rate (vault : Vault) (loan_broker : LoanBroker) :
    ℚ × RiskTier :=
  let utilization := get_utilization vault
  let coverage_ratio := loan_broker.coverage_ratio
  let impairment_ratio := vault.impairment_ratio
  if ratioGe coverage_ratio 2 && decide (impairment_ratio < 1 / 100)
      && decide (utilization < 1 / 2) then
    (BASE_RATES .safest, .safest)
  else if ratioGe coverage_ratio (3 / 2) && decide (impairment_ratio < 5 / 100)
      && decide (utilization < 7 / 10) then
    (BASE_RATES .safe, .safe)
  else if ratioGe coverage_ratio 1 && decide (impairment_ratio < 10 / 100)
      && decide (utilization < 85 / 100) then
    (BASE_RATES .moderate, .moderate)
  else if ratioGe coverage_ratio (1 / 2) && decide (impairment_ratio < 20 / 100)
      && decide (utilization < 95 / 100) then
    (BASE_RATES .elevated, .elevated)
  else
    (BASE_RATES .high, .high)

/-- One row of the spec's tier table (§4.3): thresholds
`coverage_ratio ≥ cr_min`, `impairment_ratio < ir_max`,
`utilization < u_max`, with the tier and annual base rate the row
assigns. -/
structure TierRow where
  cr_min : ℚ
  ir_max : ℚ
  u_max : ℚ
  tier : RiskTier
  rate : ℚ
deriving DecidableEq, Repr

/-- The spec's tier threshold table (§4.3), top row first; the final
`high / 5%` row is the catch-all of `specFirstMatch`. -/
def specTierTable : List TierRow :=
  [⟨2, 1 / 100, 1 / 2, .safest, 1 / 100⟩,
   ⟨3 / 2, 5 / 100, 7 / 10, .safe, 2 / 100⟩,
   ⟨1, 10 / 100, 85 / 100, .moderate, 3 / 100⟩,
   ⟨1 / 2, 20 / 100, 95 / 100, .elevated, 4 / 100⟩]

/-- A row matches only if all three of its conditions hold
simultaneously (spec §4.3). -/
def rowMatches (row : TierRow) (coverage_ratio : Option ℚ)
    (impairment_ratio utilization : ℚ) : Bool :=
  ratioGe coverage_ratio row.cr_min
    && decide (impairment_ratio < row.ir_max)
    && decide (utilization < row.u_max)

/-- Spec-side evaluation of a threshold table: strictly top-to-bottom,
first match wins, `(5%, high)` when no row matches (spec §4.3). -/
def specFirstMatch (table : List TierRow) (coverage_ratio : Option ℚ)
    (impairment_ratio utilization : ℚ) : ℚ × RiskTier :=
  match table with
  | [] => (5 / 100, .high)
  | row :: rest =>
    if rowMatches row coverage_ratio impairment_ratio utilization then
      (row.rate, row.tier)
    else specFirstMatch rest coverage_ratio impairment_ratio utilization

/-! ## Insurance pool capital ledger (`pool.py`)

The `insurance_pools` row mutated by the pool operations.  The database
round trips of `get_metrics` / `_update_pool_state` /
`_update_pool_exposure` are modelled as explicit state passing; every
operation is deterministic on its success path and the XRPL
transactions the placeholders would submit are external. -/

/-- One `insurance_pools` row (`pool.py`, lines 375-395):
`coverage_ratio` is the *stored* column, written by `_store_pool`
(as `0`) and by `_update_pool_exposure`, and left untouched by
`_update_pool_state`. -/
structure PoolState where
  total_capital : ℤ
  available_capital : ℤ
  total_exposure : ℤ
  coverage_ratio : ℚ
  active_policies_count : ℤ
  total_claims_paid : ℤ
deriving DecidableEq, Repr

/-- `InsurancePool._store_pool` (`pool.py`, lines 375-395): the INSERT
sets `total_exposure, coverage_ratio, active_policies_count,
total_claims_paid` all to `0`. -/
def store_pool (total_capital available_capital : ℤ) : PoolState :=
  { total_capital := total_capital
    available_capital := available_capital
    total_exposure := 0
    coverage_ratio := 0
    active_policies_count := 0
    total_claims_paid := 0 }

/-- The typed failures the pool operations raise (`ValueError`s of
`pool.py`). -/
inductive PoolErr where
  | withdrawBreach
  | exposureBreach
  | insufficientCapital
deriving DecidableEq, Repr

/-- `InsurancePool.deposit_capital` (`pool.py`, lines 132-171): adds
the amount to `total_capital` and `available_capital` through
`_update_pool_state`, which does not touch the stored
`coverage_ratio`.  No check, never fails. -/
def deposit_capital (s : PoolState) (amount : ℤ) : PoolState :=
  { s with
    total_capital := s.total_capital + amount
    available_capital := s.available_capital + amount }

/-- `InsurancePool.withdraw_capital` (`pool.py`, lines 173-220):
rejects when `total_exposure > 0` and the post-withdrawal ratio falls
below `MINIMUM_COVERAGE_RATIO = 2.0`, else updates the two capital
fields through `_update_pool_state` — stored `coverage_ratio`
untouched. -/
def withdraw_capital (s : PoolState) (lp_tokens : ℤ) :
    Except PoolErr PoolState :=
  let new_available := s.available_capital - lp_tokens
  if 0 < s.total_exposure
      ∧ (new_available : ℚ) / (s.total_exposure : ℚ) < 2 then
    .error .withdrawBreach
  else
    .ok { s with
      total_capital := s.total_capital - lp_tokens
      available_capital := new_available }

/-- `InsurancePool.add_policy_exposure` (`pool.py`, lines 222-255):
rejects when `available_capital / new_exposure < 2.0`, else writes the
new exposure, count, and a freshly recomputed stored `coverage_ratio`
through `_update_pool_exposure` (whose SQL `CASE` stores `0` when the
new exposure is not positive).  The source would raise
`ZeroDivisionError` when `new_exposure == 0`; here `(q : ℚ)/0 = 0 < 2`
lands that call in the same rejected branch. -/
def add_policy_exposure (s : PoolState) (coverage_amount : ℤ) :
    Except PoolErr PoolState :=
  let new_exposure := s.total_exposure + coverage_amount
  let new_ratio := (s.available_capital : ℚ) / (new_exposure : ℚ)
  if new_ratio < 2 then .error .exposureBreach
  else
    .ok { s with
      total_exposure := new_exposure
      active_policies_count := s.active_policies_count + 1
      coverage_ratio :=
        if 0 < new_exposure then
          (s.available_capital : ℚ) / (new_exposure : ℚ)
        else 0 }

/-- `InsurancePool.remove_policy_exposure` (`pool.py`, lines 257-277):
never rejected, floors the exposure and count at `0`, recomputes the
stored `coverage_ratio` through `_update_pool_exposure`. -/
def remove_policy_exposure (s : PoolState) (coverage_amount : ℤ) :
    PoolState :=
  let new_exposure := max 0 (s.total_exposure - coverage_amount)
  { s with
    total_exposure := new_exposure
    active_policies_count := max 0 (s.active_policies_count - 1)
    coverage_ratio :=
      if 0 < new_exposure then
        (s.available_capital : ℚ) / (new_exposure : ℚ)
      else 0 }

/-! ## Database claims table (`database.py`) -/

/-- Modelled from the spec: the SQL schema of the `claims` table is not
under `src/` (the repository ships no schema file), only its readers
and writers are.  Per spec §3 a Claim record carries
`{claim_id, policy_id, loan_id, broker_id, vault_id, default_amount,
default_covered, vault_loss, claim_payout, status, escrow_sequence?}`.
`ClaimValidator.validate_claim` additionally reads
`'coverage_amount'`, `'coverage_start'`, `'coverage_end'` from the row
returned by `get_claims` through `dict.get` with defaults, so the
modelled row also carries those spec-§3 Policy fields; rows inserted by
`create_claim` (`database.py`, lines 113-147) leave them at the `.get`
defaults (`0` / absent).  `claim_id` is the returned UUID, modelled as
the row's insertion sequence; `created_seq` ordering realises
`ORDER BY created_at DESC`. -/
structure ClaimRow where
  claim_id : ℕ
  policy_id : String
  loan_id : String
  loan_manage_tx_hash : String
  loan_broker_id : String
  vault_id : String
  default_amount : ℤ
  default_covered : ℤ
  vault_loss : ℤ
  claim_payout : ℤ
  status : String
  coverage_amount : ℤ
  coverage_start : Option ℤ
  coverage_end : Option ℤ
deriving DecidableEq, Repr

/-- The persistent store the validator touches: the `claims` table as a
list of rows in insertion order (oldest first, so the most recently
created row is the last). -/
structure DBState where
  claims : List ClaimRow
deriving DecidableEq, Repr

/-- `WardDatabase.get_claims(policy_id=…, limit=1)` (`database.py`,
lines 196-222): `SELECT * FROM claims WHERE policy_id = $1 ORDER BY
created_at DESC LIMIT 1` — the most recently inserted row for the
policy id, if any. -/
def getClaimsLatest (db : DBState) (policy_id : String) :
    Option ClaimRow :=
  (db.claims.filter (fun r => decide (r.policy_id = policy_id))).getLast?

/-- `WardDatabase.create_claim` (`database.py`, lines 113-147): INSERT
with `status = 'pending'`, returning the new `claim_id`. -/
def create_claim (db : DBState) (policy_id loan_id loan_manage_tx_hash
    loan_broker_id vault_id : String)
    (default_amount default_covered vault_loss claim_payout : ℤ) :
    ℕ × DBState :=
  let cid := db.claims.length
  (cid,
   ⟨db.claims ++
     [{ claim_id := cid
        policy_id := policy_id
        loan_id := loan_id
        loan_manage_tx_hash := loan_manage_tx_hash
        loan_broker_id := loan_broker_id
        vault_id := vault_id
        default_amount := default_amount
        default_covered := default_covered
        vault_loss := vault_loss
        claim_payout := claim_payout
        status := "pending"
        coverage_amount := 0
        coverage_start := none
        coverage_end := none }]⟩)

/-- `WardDatabase.update_claim_status(claim_id, status)` for the plain
status branches (`database.py`, lines 149-194): `UPDATE claims SET
status = $1 WHERE claim_id = $2`. -/
def update_claim_status (db : DBState) (cid : ℕ) (status : String) :
    DBState :=
  ⟨db.claims.map (fun r =>
    if r.claim_id = cid then { r with status := status } else r)⟩

/-! ## Claim validator (`validator.py`) -/

/-- The rejection reasons of `ClaimValidator.validate_claim`
(`validator.py`), one constructor per `rejection_reason` f-string:
* `notDefaulted` — "Loan not defaulted (lsfLoanDefault flag not set)";
* `noVaultLoss` — "No vault loss occurred (first-loss capital covered
  entire default)";
* `policyNotFound` — "Policy not found: …";
* `policyNotActive s` — "Policy not active: status=s";
* `coverageNotStarted` — "Coverage not started (starts: …)";
* `policyExpired` — "Policy expired (ended: …)";
* `vaultMismatch` — "VaultID mismatch (policy: …, actual: …)". -/
inductive RejectReason where
  | notDefaulted
  | noVaultLoss
  | policyNotFound
  | policyNotActive (status : String)
  | coverageNotStarted
  | policyExpired
  | vaultMismatch
deriving DecidableEq, Repr

/-- `ValidationResult` (`validator.py`, lines 21-35). -/
structure ValidationResult where
  approved : Bool
  claim_payout : ℤ
  vault_loss : ℤ
  policy_coverage : ℤ
  rejection_reason : Option RejectReason := none
  claim_id : Option ℕ := none
deriving DecidableEq, Repr

/-- `ClaimValidator.validate_claim` (`validator.py`, lines 54-246).
`now` is `datetime.utcnow()` at step 5, the database is threaded
explicitly and its calls are modelled on their success path (the
`except` branches wrap external `asyncpg` failures).  Step 8 (pool
capital) and step 9 (multi-sig) are TODO placeholders in the source
that check nothing — the pool is not even an input — so the embedding
proceeds from step 7 directly to the claim creation. -/
def validate_claim (loan_id policy_id : String) (loan : Loan)
    (loan_broker : LoanBroker) (vault : Vault) (tx_hash : String)
    (now : ℤ) (db : DBState) : ValidationResult × DBState :=
  if loan.is_defaulted = false then
    ({ approved := false, claim_payout := 0, vault_loss := 0
       policy_coverage := 0
       rejection_reason := some .notDefaulted }, db)
  else
    let loss_calc := calculate_vault_loss loan.principal_outstanding
      loan.interest_outstanding loan_broker.debt_total
      loan_broker.cover_available loan_broker.cover_rate_minimum
      loan_broker.cover_rate_liquidation
    let vault_loss := loss_calc.vault_loss
    if vault_loss ≤ 0 then
      ({ approved := false, claim_payout := 0, vault_loss := 0
         policy_coverage := 0
         rejection_reason := some .noVaultLoss }, db)
    else
      match getClaimsLatest db policy_id with
      | none =>
        ({ approved := false, claim_payout := 0, vault_loss := vault_loss
           policy_coverage := 0
           rejection_reason := some .policyNotFound }, db)
      | some policy =>
        if policy.status ≠ "active" then
          ({ approved := false, claim_payout := 0, vault_loss := vault_loss
             policy_coverage := policy.coverage_amount
             rejection_reason := some (.policyNotActive policy.status) }, db)
        else if (match policy.coverage_start with
                 | some t => decide (now < t)
                 | none => false) then
          ({ approved := false, claim_payout := 0, vault_loss := vault_loss
             policy_coverage := policy.coverage_amount
             rejection_reason := some .coverageNotStarted }, db)
        else if (match policy.coverage_end with
                 | some t => decide (t < now)
                 | none => false) then
          ({ approved := false, claim_payout := 0, vault_loss := vault_loss
             policy_coverage := policy.coverage_amount
             rejection_reason := some .policyExpired }, db)
        else if vault.vault_id ≠ policy.vault_id then
          ({ approved := false, claim_payout := 0, vault_loss := vault_loss
             policy_coverage := policy.coverage_amount
             rejection_reason := some .vaultMismatch }, db)
        else
          let policy_coverage := policy.coverage_amount
          let claim_payout := min vault_loss policy_coverage
          let created := create_claim db policy_id loan_id tx_hash
            loan_broker.loan_broker_id vault.vault_id
            loss_calc.default_amount loss_calc.default_covered
            vault_loss claim_payout
          let db2 := update_claim_status created.2 created.1 "validated"
          ({ approved := true, claim_payout := claim_payout
             vault_loss := vault_loss, policy_coverage := policy_coverage
             claim_id := some created.1 }, db2)

/-! ## Escrow controller (`escrow.py`) -/

/-- An XRPL `Escrow` ledger object as returned by the
`account_objects` query in `get_escrow_status` (`escrow.py`, lines
269-305).  A finished or cancelled escrow is no longer on the ledger,
so "already cancelled" is absence from the list. -/
structure LedgerEscrowObj where
  sequence : ℕ
  amount : ℤ
  destination : String
  finish_after : ℤ
  cancel_after : ℤ
deriving DecidableEq, Repr

/-- `EscrowStatus` (`escrow.py`, lines 28-39). -/
structure EscrowStatus where
  claim_id : String
  escrow_sequence : ℕ
  amount : ℤ
  destination : String
  finish_after : ℤ
  cancel_after : ℤ
  status : String
  can_finish : Bool
  can_cancel : Bool
deriving DecidableEq, Repr

/-- The escrow search loop of `get_escrow_status` (`escrow.py`, lines
280-285): first account object with the wanted sequence. -/
def findEscrow (objs : List LedgerEscrowObj) (seq : ℕ) :
    Option LedgerEscrowObj :=
  objs.find? (fun o => decide (o.sequence = seq))

/-- `ClaimEscrow.get_escrow_status` (`escrow.py`, lines 256-328):
absent escrow ⇒ `finished_or_cancelled` with both flags `False`
(the source fills the timestamps with `utcnow`, hence `now` twice);
present escrow ⇒ `can_finish = now >= finish_after`,
`can_cancel = now >= cancel_after`, and the status string computed from
the two flags. -/
def get_escrow_status (objs : List LedgerEscrowObj) (seq : ℕ) (now : ℤ) :
    EscrowStatus :=
  match findEscrow objs seq with
  | none =>
    { claim_id := "unknown", escrow_sequence := seq, amount := 0
      destination := "unknown", finish_after := now, cancel_after := now
      status := "finished_or_cancelled"
      can_finish := false, can_cancel := false }
  | some o =>
    let can_finish := decide (o.finish_after ≤ now)
    let can_cancel := decide (o.cancel_after ≤ now)
    { claim_id := "unknown", escrow_sequence := seq, amount := o.amount
      destination := o.destination, finish_after := o.finish_after
      cancel_after := o.cancel_after
      status :=
        if can_finish && !can_cancel then "finishable"
        else if can_cancel then "cancellable"
        else "pending"
      can_finish := can_finish, can_cancel := can_cancel }

/-- The `ValueError`s of `finish_escrow` / `cancel_escrow`
(`escrow.py`, lines 171-174 and 226-229). -/
inductive EscrowErr where
  | notYetFinishable
  | notYetCancellable
deriving DecidableEq, Repr

/-- `ClaimEscrow.finish_escrow` (`escrow.py`, lines 151-199): raises
`NotYetFinishable` when the status query says the escrow cannot be
finished — before any write — else submits `EscrowFinish` (which
consumes the ledger object) and sets the claim's status to
`'settled'`.  The claim row is addressed by its modelled id, the XRPL
submission on its success path. -/
def finish_escrow (claim_cid : ℕ) (escrow_sequence : ℕ) (now : ℤ)
    (ledger : List LedgerEscrowObj) (db : DBState) :
    Except EscrowErr (DBState × List LedgerEscrowObj) :=
  let status := get_escrow_status ledger escrow_sequence now
  if status.can_finish = false then .error .notYetFinishable
  else
    .ok (update_claim_status db claim_cid "settled",
      ledger.filter (fun o => decide (o.sequence ≠ escrow_sequence)))

/-- `ClaimEscrow.cancel_escrow` (`escrow.py`, lines 201-254): raises
`NotYetCancellable` when the status query says the escrow cannot be
cancelled, else submits `EscrowCancel` (consuming the ledger object)
and sets the claim's status to `'rejected'`. -/
def cancel_escrow (claim_cid : ℕ) (escrow_sequence : ℕ) (now : ℤ)
    (ledger : List LedgerEscrowObj) (db : DBState) :
    Except EscrowErr (DBState × List LedgerEscrowObj) :=
  let status := get_escrow_status ledger escrow_sequence now
  if status.can_cancel = false then .error .notYetCancellable
  else
    .ok (update_claim_status db claim_cid "rejected",
      ledger.filter (fun o => decide (o.sequence ≠ escrow_sequence)))

/-! ## Concrete evaluation data

Ledger snapshots realising the spec's example scenarios (§8): a
defaulted loan whose waterfall run gives `default_amount =
105_000_000`, `default_covered = 50_000_000`, `vault_loss =
55_000_000`, an active policy row covering `100_000_000` drops on vault
`"V"`, and a vault/broker pair whose derived metrics are
`coverage_ratio = 2.5`, `impairment_ratio = 0.0`,
`utilization = 0.3`. -/

/-- A defaulted loan (`lsfLoanDefault` set) with the §8 example
amounts. -/
def exLoanDefaulted : Loan :=
  { loan_id := "L", loan_broker_id := "B", borrower := "rBorrower"
    principal_outstanding := 100000000
    total_value_outstanding := 105000000
    interest_outstanding := 5000000
    management_fee_outstanding := 0
    flags := 0x00010000 }

/-- The same loan with no flags set: not defaulted. -/
def exLoanCurrent : Loan :=
  { exLoanDefaulted with flags := 0 }

/-- The §8 example broker: `debt_total = 1_000_000_000`,
`cover_available = 60_000_000`, `cover_rate_minimum = 0.10`,
`cover_rate_liquidation = 0.50`. -/
def exBroker : LoanBroker :=
  { loan_broker_id := "B", owner := "rOwner", vault_id := "V"
    debt_total := 1000000000, debt_maximum := 2000000000
    cover_available := 60000000
    cover_rate_minimum := 1 / 10
    cover_rate_liquidation := 1 / 2
    management_fee_rate := 0 }

/-- The insured vault `"V"`. -/
def exVault : Vault :=
  { vault_id := "V", owner := "rOwner", account := "rAccount"
    assets_total := 1000000000, assets_available := 700000000
    loss_unrealized := 0, shares_total := 500000000
    share_mpt_id := "", ledger_index := 1 }

/-- A pre-existing row for policy `"P"` with status `'active'`,
coverage `100_000_000` drops on vault `"V"` and no coverage-window
timestamps — the record the validator's step-3 lookup finds. -/
def exPolicyRow : ClaimRow :=
  { claim_id := 0, policy_id := "P", loan_id := "", loan_manage_tx_hash := ""
    loan_broker_id := "", vault_id := "V"
    default_amount := 0, default_covered := 0, vault_loss := 0
    claim_payout := 0, status := "active"
    coverage_amount := 100000000
    coverage_start := none, coverage_end := none }

/-- A database holding just the active policy row. -/
def exDB : DBState := ⟨[exPolicyRow]⟩

/-- A vault whose derived metrics are `impairment_ratio = 0` and
`utilization = 0.3` (spec §8 scenario 2). -/
def exVaultSafest : Vault :=
  { vault_id := "V2", owner := "", account := ""
    assets_total := 1000, assets_available := 700
    loss_unrealized := 0, shares_total := 100
    share_mpt_id := "", ledger_index := 1 }

/-- A broker whose derived `coverage_ratio` is `2.5` (spec §8
scenario 2): `minimum_cover_required = int(1000 * 0.10) = 100`,
`cover_available = 250`. -/
def exBrokerSafest : LoanBroker :=
  { loan_broker_id := "B2", owner := "", vault_id := "V2"
    debt_total := 1000, debt_maximum := 0
    cover_available := 250
    cover_rate_minimum := 1 / 10
    cover_rate_liquidation := 1 / 2
    management_fee_rate := 0 }

/-- The escrow of spec §8 scenario 5, on a compressed clock: created
with `finish_after = 100`, `cancel_after = 200`. -/
def exEscrowObj : LedgerEscrowObj :=
  { sequence := 7, amount := 55000000, destination := "rClaimant"
    finish_after := 100, cancel_after := 200 }

/-- A ledger carrying only that escrow. -/
def exLedger : List LedgerEscrowObj := [exEscrowObj]

/-- A claims table holding one escrowed claim with modelled id `1`. -/
def exClaimsDB : DBState :=
  ⟨[{ exPolicyRow with claim_id := 1, status := "escrowed" }]⟩

/-- The claim row `validate_claim` creates (and then marks
`'validated'`) when it approves the example scenario: modelled id `1`,
the waterfall amounts, and the `.get` defaults for the policy-shaped
columns. -/
def exCreatedRow : ClaimRow :=
  { claim_id := 1, policy_id := "P", loan_id := "L"
    loan_manage_tx_hash := "TX", loan_broker_id := "B", vault_id := "V"
    default_amount := 105000000, default_covered := 50000000
    vault_loss := 55000000, claim_payout := 55000000
    status := "validated", coverage_amount := 0
    coverage_start := none, coverage_end := none }

/-- The pool after withdrawing `10` from a fresh 100-capital pool. -/
def exPoolAfterWithdraw : PoolState :=
  { total_capital := 90, available_capital := 90, total_exposure := 0
    coverage_ratio := 0, active_policies_count := 0
    total_claims_paid := 0 }

/-- An empty vault: no assets, no shares, no losses. -/
def exVaultEmpty : Vault :=
  { vault_id := "V3", owner := "", account := ""
    assets_total := 0, assets_available := 0
    loss_unrealized := 0, shares_total := 0
    share_mpt_id := "", ledger_index := 0 }

/-- The intermediate pool state of the C9 stale-ratio run: the result
of `add_policy_exposure (store_pool 100 100) 40`. -/
def exPoolMid : PoolState :=
  { total_capital := 100, available_capital := 100, total_exposure := 40
    coverage_ratio := 5 / 2, active_policies_count := 1
    total_claims_paid := 0 }

/-! # Helper lemmas -/

/-- Python truncation of a non-negative rational is non-negative. -/
theorem pytrunc_nonneg {q : ℚ} (h : 0 ≤ q) : 0 ≤ pytrunc q := by
  unfold pytrunc
  rw [if_pos h]
  exact Int.le_floor.mpr (by exact_mod_cast h)

/-- Every row of an updated claims table whose id was targeted carries
the new status. -/
theorem update_claim_status_targeted (db : DBState) (cid : ℕ)
    (s : String) :
    ∀ r ∈ (update_claim_status db cid s).claims,
      r.claim_id = cid → r.status = s := by
  intro r hr hid
  simp only [update_claim_status, List.mem_map] at hr
  obtain ⟨r0, _, rfl⟩ := hr
  by_cases h0 : r0.claim_id = cid
  · simp [h0]
  · simp only [if_neg h0] at hid ⊢
    exact absurd hid h0

/-- The waterfall run of spec §8 scenario 1, evaluated. -/
theorem exLossEval :
    calculate_vault_loss 100000000 5000000 1000000000 60000000
      (1 / 10) (1 / 2) =
      { default_amount := 105000000, minimum_cover := 100000000
        default_covered := 50000000, vault_loss := 55000000 } := by
  norm_num [calculate_vault_loss, pytrunc]

/-- `validate_claim` on the example scenario, evaluated: approval with
payout `min(55_000_000, 100_000_000) = 55_000_000`, and the store grown
by the one created-then-validated claim row. -/
theorem exValidateRun1 :
    validate_claim "L" "P" exLoanDefaulted exBroker exVault "TX" 0 exDB =
      ({ approved := true, claim_payout := 55000000
         vault_loss := 55000000, policy_coverage := 100000000
         rejection_reason := none, claim_id := some 1 },
       ⟨[exPolicyRow, exCreatedRow]⟩) := by
  norm_num [validate_claim, exLoanDefaulted, exBroker, exVault, exDB,
    exPolicyRow, exCreatedRow, Loan.is_defaulted, LSF_LOAN_DEFAULT,
    exLossEval, getClaimsLatest, create_claim, update_claim_status,
    min_def]

/-- The second delivery of the same default event, evaluated: the
policy lookup now returns the claim row created by the first run
(`ORDER BY created_at DESC`), whose status string is `'validated'`, so
the pipeline rejects at step 4 and writes nothing. -/
theorem exValidateRun2 (loan_id tx_hash : String) :
    validate_claim loan_id "P" exLoanDefaulted exBroker exVault tx_hash 0
      ⟨[exPolicyRow, exCreatedRow]⟩ =
      ({ approved := false, claim_payout := 0, vault_loss := 55000000
         policy_coverage := 0
         rejection_reason := some (.policyNotActive "validated")
         claim_id := none },
       ⟨[exPolicyRow, exCreatedRow]⟩) := by
  norm_num [validate_claim, exLoanDefaulted, exBroker, exVault,
    exPolicyRow, exCreatedRow, Loan.is_defaulted, LSF_LOAN_DEFAULT,
    exLossEval, getClaimsLatest]
  decide

/-! # Claim theorems -/

/-- C1.  For every call of `calculate_vault_loss` with non-negative
inputs (`principal_outstanding`, `interest_outstanding`, `debt_total`,
`cover_available` non-negative integers; `cover_rate_minimum`,
`cover_rate_liquidation` non-negative fractions), the result satisfies
`0 ≤ default_covered ≤ default_amount` and
`vault_loss = default_amount - default_covered ≥ 0`. -/
theorem claim1_waterfall_bounds (p i d c : ℤ) (rm rl : ℚ)
    (hp : 0 ≤ p) (hi : 0 ≤ i) (hd : 0 ≤ d) (hc : 0 ≤ c)
    (hrm : 0 ≤ rm) (hrl : 0 ≤ rl) :
    0 ≤ (calculate_vault_loss p i d c rm rl).default_covered ∧
    (calculate_vault_loss p i d c rm rl).default_covered ≤
      (calculate_vault_loss p i d c rm rl).default_amount ∧
    (calculate_vault_loss p i d c rm rl).vault_loss =
      (calculate_vault_loss p i d c rm rl).default_amount -
        (calculate_vault_loss p i d c rm rl).default_covered ∧
    0 ≤ (calculate_vault_loss p i d c rm rl).vault_loss := by
  have hda : 0 ≤ p + i := add_nonneg hp hi
  have hmc : 0 ≤ pytrunc ((d : ℚ) * rm) :=
    pytrunc_nonneg (mul_nonneg (by exact_mod_cast hd) hrm)
  have hliq : 0 ≤ pytrunc ((pytrunc ((d : ℚ) * rm) : ℚ) * rl) :=
    pytrunc_nonneg (mul_nonneg (by exact_mod_cast hmc) hrl)
  have hcov_lb :
      0 ≤ min (pytrunc ((pytrunc ((d : ℚ) * rm) : ℚ) * rl))
        (min (p + i) c) :=
    le_min hliq (le_min hda hc)
  have hcov_ub :
      min (pytrunc ((pytrunc ((d : ℚ) * rm) : ℚ) * rl))
        (min (p + i) c) ≤ p + i :=
    le_trans (min_le_right _ _) (min_le_left _ _)
  refine ⟨?_, ?_, rfl, ?_⟩
  · simp only [calculate_vault_loss]
    exact hcov_lb
  · simp only [calculate_vault_loss]
    exact hcov_ub
  · simp only [calculate_vault_loss]
    exact sub_nonneg.mpr hcov_ub

/-- Witness for C1 at the spec's §8 example scenario 1. -/
theorem claim1_waterfall_bounds_witness :
    ((0 : ℤ) ≤ 100000000 ∧ (0 : ℤ) ≤ 5000000 ∧ (0 : ℤ) ≤ 1000000000 ∧
      (0 : ℤ) ≤ 60000000 ∧ (0 : ℚ) ≤ 1 / 10 ∧ (0 : ℚ) ≤ 1 / 2) ∧
    (0 ≤ (calculate_vault_loss 100000000 5000000 1000000000 60000000
        (1 / 10) (1 / 2)).default_covered ∧
      (calculate_vault_loss 100000000 5000000 1000000000 60000000
        (1 / 10) (1 / 2)).default_covered ≤
        (calculate_vault_loss 100000000 5000000 1000000000 60000000
          (1 / 10) (1 / 2)).default_amount ∧
      (calculate_vault_loss 100000000 5000000 1000000000 60000000
        (1 / 10) (1 / 2)).vault_loss =
        (calculate_vault_loss 100000000 5000000 1000000000 60000000
          (1 / 10) (1 / 2)).default_amount -
          (calculate_vault_loss 100000000 5000000 1000000000 60000000
            (1 / 10) (1 / 2)).default_covered ∧
      0 ≤ (calculate_vault_loss 100000000 5000000 1000000000 60000000
        (1 / 10) (1 / 2)).vault_loss) :=
  ⟨⟨by norm_num, by norm_num, by norm_num, by norm_num, by norm_num,
    by norm_num⟩,
   claim1_waterfall_bounds 100000000 5000000 1000000000 60000000
     (1 / 10) (1 / 2) (by norm_num) (by norm_num) (by norm_num)
     (by norm_num) (by norm_num) (by norm_num)⟩

/-- C2 (code bug).  The spec says a call of
`calculate_share_value_impact` with `shares_total == 0` returns all
share-value outputs as `0` with no error; the source instead divides by
`shares_total` with no guard and raises `ZeroDivisionError` (`none`
here), while the sibling `Vault.share_value` does guard the same
formula and returns `0`. -/
theorem claim2_zero_shares_division_fault :
    calculate_share_value_impact 1000000 0 0 0 = none ∧
    Vault.share_value
      { vault_id := "V0", owner := "", account := ""
        assets_total := 1000000, assets_available := 1000000
        loss_unrealized := 0, shares_total := 0
        share_mpt_id := "", ledger_index := 0 } = 0 := by
  constructor
  · rfl
  · rfl

/-- C3 counterexample.  The claim says `calculate_vault_loss` fails
with `InvalidInput` on any negative input and never returns a result;
at `principal_outstanding = -1` (all else `0`) the source returns the
result of the unchanged formula — a dictionary with `default_amount =
-1` and `default_covered = -1` — raising nothing and clamping
nothing. -/
theorem claim3_counterexample :
    calculate_vault_loss (-1) 0 0 0 0 0 =
      { default_amount := -1, minimum_cover := 0, default_covered := -1
        vault_loss := 0 } := by
  norm_num [calculate_vault_loss, pytrunc]

/-- C3 as amended: `calculate_vault_loss` performs no input
validation and has no failure path; with inputs whose sum is negative
it returns a result computed by the unchanged formula, whose
`default_amount` is the negative sum itself — neither an `InvalidInput`
failure nor a clamp. -/
theorem claim3_no_input_validation (p i d c : ℤ) (rm rl : ℚ)
    (h : p + i < 0) :
    (calculate_vault_loss p i d c rm rl).default_amount = p + i ∧
    (calculate_vault_loss p i d c rm rl).default_amount < 0 :=
  ⟨rfl, h⟩

/-- Witness for the amended C3 at `principal_outstanding = -1`. -/
theorem claim3_no_input_validation_witness :
    ((-1 : ℤ) + 0 < 0) ∧
    ((calculate_vault_loss (-1) 0 0 0 0 0).default_amount = -1 + 0 ∧
      (calculate_vault_loss (-1) 0 0 0 0 0).default_amount < 0) :=
  ⟨by norm_num, claim3_no_input_validation (-1) 0 0 0 0 0 (by norm_num)⟩

/-- C6.  For every loan with `is_defaulted = false`, `validate_claim`
immediately returns the "not defaulted" rejection and performs no
database write: the returned store is the input store, untouched, and
no later pipeline step (waterfall, policy lookup, claim creation)
contributes to the result. -/
theorem claim6_not_defaulted_short_circuit (loan_id policy_id : String)
    (loan : Loan) (loan_broker : LoanBroker) (vault : Vault)
    (tx_hash : String) (now : ℤ) (db : DBState)
    (h : loan.is_defaulted = false) :
    validate_claim loan_id policy_id loan loan_broker vault tx_hash now db =
      ({ approved := false, claim_payout := 0, vault_loss := 0
         policy_coverage := 0, rejection_reason := some .notDefaulted
         claim_id := none }, db) := by
  simp [validate_claim, h]

/-- C4 (code bug).  The spec says that after step 7 computes
`claim_payout = min(vault_loss, policy.coverage_amount)` the claim is
rejected when `pool.available_capital < claim_payout` or the
post-payout coverage ratio would fall below 2.0, and approval is
returned only when both capital-adequacy conditions pass.  In the
source, step 8 is a TODO placeholder that logs "assuming sufficient"
and checks nothing — `validate_claim` does not even take pool state as
an input — so the example scenario is approved with a
`55_000_000`-drop payout no matter what any pool holds (in particular
a pool with `available_capital = 0 < 55_000_000`). -/
theorem claim4_pool_capital_check_missing :
    (validate_claim "L" "P" exLoanDefaulted exBroker exVault "TX" 0
      exDB).1 =
      { approved := true, claim_payout := 55000000
        vault_loss := 55000000, policy_coverage := 100000000
        rejection_reason := none, claim_id := some 1 } ∧
    (0 : ℤ) < 55000000 := by
  rw [exValidateRun1]
  exact ⟨rfl, by norm_num⟩

/-- C5 counterexample.  The claim says a second delivery of the same
`(loan_id, tx_hash)` default event detects the existing Claim and
skips re-validation.  In the source there is no lookup keyed by
`(loan_id, tx_hash)` at all: the second run re-executes the whole
pipeline and is rejected at the policy-status step with
`"Policy not active: status=validated"` — because the step-3 policy
lookup reads the *claims* table and finds the claim row the first run
created — and a run with a *different* `(loan_id, tx_hash)` is
rejected identically, showing the outcome is not keyed by that
pair. -/
theorem claim5_counterexample :
    (validate_claim "L" "P" exLoanDefaulted exBroker exVault "TX" 0
      exDB).1.approved = true ∧
    (validate_claim "L" "P" exLoanDefaulted exBroker exVault "TX" 0
      exDB).2.claims.length = 2 ∧
    validate_claim "L" "P" exLoanDefaulted exBroker exVault "TX" 0
      (validate_claim "L" "P" exLoanDefaulted exBroker exVault "TX" 0
        exDB).2 =
      ({ approved := false, claim_payout := 0, vault_loss := 55000000
         policy_coverage := 0
         rejection_reason := some (.policyNotActive "validated")
         claim_id := none },
       (validate_claim "L" "P" exLoanDefaulted exBroker exVault "TX" 0
         exDB).2) ∧
    (validate_claim "L2" "P" exLoanDefaulted exBroker exVault "TX2" 0
      (validate_claim "L" "P" exLoanDefaulted exBroker exVault "TX" 0
        exDB).2).1.approved = false := by
  rw [exValidateRun1]
  exact ⟨rfl, rfl, exValidateRun2 "L" "TX", by rw [exValidateRun2 "L2" "TX2"]⟩

/-- C5 as amended: `validate_claim` performs no duplicate-claim
detection.  For any scenario whose store holds a single active policy
row, the first run approves and persists one claim row; the second run
with the same `(loan_id, tx_hash)` re-executes the pipeline and is
rejected with `"Policy not active: status=validated"` (the step-3
policy lookup reads the claims table and finds the first run's row),
creating no further row.  Exactly one claim is persisted, but by this
accident of the lookup, not by idempotent duplicate detection. -/
theorem claim5_no_duplicate_detection (loan_id policy_id : String)
    (loan : Loan) (loan_broker : LoanBroker) (vault : Vault)
    (tx_hash : String) (now : ℤ) (row : ClaimRow)
    (hdef : loan.is_defaulted = true)
    (hvl : 0 < (calculate_vault_loss loan.principal_outstanding
      loan.interest_outstanding loan_broker.debt_total
      loan_broker.cover_available loan_broker.cover_rate_minimum
      loan_broker.cover_rate_liquidation).vault_loss)
    (hpid : row.policy_id = policy_id)
    (hact : row.status = "active")
    (hcs : row.coverage_start = none)
    (hce : row.coverage_end = none)
    (hv : vault.vault_id = row.vault_id)
    (hcid : row.claim_id ≠ 1) :
    (validate_claim loan_id policy_id loan loan_broker vault tx_hash now
      ⟨[row]⟩).1.approved = true ∧
    (validate_claim loan_id policy_id loan loan_broker vault tx_hash now
      ⟨[row]⟩).2.claims.length = 2 ∧
    (validate_claim loan_id policy_id loan loan_broker vault tx_hash now
      (validate_claim loan_id policy_id loan loan_broker vault tx_hash
        now ⟨[row]⟩).2).1.approved = false ∧
    (validate_claim loan_id policy_id loan loan_broker vault tx_hash now
      (validate_claim loan_id policy_id loan loan_broker vault tx_hash
        now ⟨[row]⟩).2).1.rejection_reason =
      some (.policyNotActive "validated") ∧
    (validate_claim loan_id policy_id loan loan_broker vault tx_hash now
      (validate_claim loan_id policy_id loan loan_broker vault tx_hash
        now ⟨[row]⟩).2).2 =
      (validate_claim loan_id policy_id loan loan_broker vault tx_hash
        now ⟨[row]⟩).2 := by
  have hvl' : ¬ (calculate_vault_loss loan.principal_outstanding
      loan.interest_outstanding loan_broker.debt_total
      loan_broker.cover_available loan_broker.cover_rate_minimum
      loan_broker.cover_rate_liquidation).vault_loss ≤ 0 :=
    not_le.mpr hvl
  have hlookup1 : getClaimsLatest ⟨[row]⟩ policy_id = some row := by
    simp [getClaimsLatest, hpid]
  have h1 : validate_claim loan_id policy_id loan loan_broker vault
      tx_hash now ⟨[row]⟩ =
      ({ approved := true
         claim_payout := min (calculate_vault_loss
           loan.principal_outstanding loan.interest_outstanding
           loan_broker.debt_total loan_broker.cover_available
           loan_broker.cover_rate_minimum
           loan_broker.cover_rate_liquidation).vault_loss
           row.coverage_amount
         vault_loss := (calculate_vault_loss loan.principal_outstanding
           loan.interest_outstanding loan_broker.debt_total
           loan_broker.cover_available loan_broker.cover_rate_minimum
           loan_broker.cover_rate_liquidation).vault_loss
         policy_coverage := row.coverage_amount
         rejection_reason := none, claim_id := some 1 },
       ⟨[row,
         { claim_id := 1, policy_id := policy_id, loan_id := loan_id
           loan_manage_tx_hash := tx_hash
           loan_broker_id := loan_broker.loan_broker_id
           vault_id := row.vault_id
           default_amount := (calculate_vault_loss
             loan.principal_outstanding loan.interest_outstanding
             loan_broker.debt_total loan_broker.cover_available
             loan_broker.cover_rate_minimum
             loan_broker.cover_rate_liquidation).default_amount
           default_covered := (calculate_vault_loss
             loan.principal_outstanding loan.interest_outstanding
             loan_broker.debt_total loan_broker.cover_available
             loan_broker.cover_rate_minimum
             loan_broker.cover_rate_liquidation).default_covered
           vault_loss := (calculate_vault_loss
             loan.principal_outstanding loan.interest_outstanding
             loan_broker.debt_total loan_broker.cover_available
             loan_broker.cover_rate_minimum
             loan_broker.cover_rate_liquidation).vault_loss
           claim_payout := min (calculate_vault_loss
             loan.principal_outstanding loan.interest_outstanding
             loan_broker.debt_total loan_broker.cover_available
             loan_broker.cover_rate_minimum
             loan_broker.cover_rate_liquidation).vault_loss
             row.coverage_amount
           status := "validated", coverage_amount := 0
           coverage_start := none, coverage_end := none }]⟩) := by
    simp [validate_claim, hdef, hvl', hlookup1, hact, hcs, hce, hv,
      create_claim, update_claim_status, hcid]
  have hlookup2 : getClaimsLatest
      ⟨[row,
        { claim_id := 1, policy_id := policy_id, loan_id := loan_id
          loan_manage_tx_hash := tx_hash
          loan_broker_id := loan_broker.loan_broker_id
          vault_id := row.vault_id
          default_amount := (calculate_vault_loss
            loan.principal_outstanding loan.interest_outstanding
            loan_broker.debt_total loan_broker.cover_available
            loan_broker.cover_rate_minimum
            loan_broker.cover_rate_liquidation).default_amount
          default_covered := (calculate_vault_loss
            loan.principal_outstanding loan.interest_outstanding
            loan_broker.debt_total loan_broker.cover_available
            loan_broker.cover_rate_minimum
            loan_broker.cover_rate_liquidation).default_covered
          vault_loss := (calculate_vault_loss
            loan.principal_outstanding loan.interest_outstanding
            loan_broker.debt_total loan_broker.cover_available
            loan_broker.cover_rate_minimum
            loan_broker.cover_rate_liquidation).vault_loss
          claim_payout := min (calculate_vault_loss
            loan.principal_outstanding loan.interest_outstanding
            loan_broker.debt_total loan_broker.cover_available
            loan_broker.cover_rate_minimum
            loan_broker.cover_rate_liquidation).vault_loss
            row.coverage_amount
          status := "validated", coverage_amount := 0
          coverage_start := none, coverage_end := none }]⟩ policy_id =
      some { claim_id := 1, policy_id := policy_id, loan_id := loan_id
             loan_manage_tx_hash := tx_hash
             loan_broker_id := loan_broker.loan_broker_id
             vault_id := row.vault_id
             default_amount := (calculate_vault_loss
               loan.principal_outstanding loan.interest_outstanding
               loan_broker.debt_total loan_broker.cover_available
               loan_broker.cover_rate_minimum
               loan_broker.cover_rate_liquidation).default_amount
             default_covered := (calculate_vault_loss
               loan.principal_outstanding loan.interest_outstanding
               loan_broker.debt_total loan_broker.cover_available
               loan_broker.cover_rate_minimum
               loan_broker.cover_rate_liquidation).default_covered
             vault_loss := (calculate_vault_loss
               loan.principal_outstanding loan.interest_outstanding
               loan_broker.debt_total loan_broker.cover_available
               loan_broker.cover_rate_minimum
               loan_broker.cover_rate_liquidation).vault_loss
             claim_payout := min (calculate_vault_loss
               loan.principal_outstanding loan.interest_outstanding
               loan_broker.debt_total loan_broker.cover_available
               loan_broker.cover_rate_minimum
               loan_broker.cover_rate_liquidation).vault_loss
               row.coverage_amount
             status := "validated", coverage_amount := 0
             coverage_start := none, coverage_end := none } := by
    simp [getClaimsLatest, hpid, List.getLast?_cons_cons]
  refine ⟨by simp [h1], by simp [h1], ?_, ?_, ?_⟩ <;>
    · simp only [h1]
      simp [validate_claim, hdef, hvl', hlookup2]

/-- Witness for the amended C5 at the example scenario. -/
theorem claim5_no_duplicate_detection_witness :
    (exLoanDefaulted.is_defaulted = true ∧
      exPolicyRow.claim_id ≠ 1) ∧
    ((validate_claim "L" "P" exLoanDefaulted exBroker exVault "TX" 0
        ⟨[exPolicyRow]⟩).1.approved = true ∧
      (validate_claim "L" "P" exLoanDefaulted exBroker exVault "TX" 0
        ⟨[exPolicyRow]⟩).2.claims.length = 2 ∧
      (validate_claim "L" "P" exLoanDefaulted exBroker exVault "TX" 0
        (validate_claim "L" "P" exLoanDefaulted exBroker exVault "TX" 0
          ⟨[exPolicyRow]⟩).2).1.approved = false ∧
      (validate_claim "L" "P" exLoanDefaulted exBroker exVault "TX" 0
        (validate_claim "L" "P" exLoanDefaulted exBroker exVault "TX" 0
          ⟨[exPolicyRow]⟩).2).1.rejection_reason =
        some (.policyNotActive "validated") ∧
      (validate_claim "L" "P" exLoanDefaulted exBroker exVault "TX" 0
        (validate_claim "L" "P" exLoanDefaulted exBroker exVault "TX" 0
          ⟨[exPolicyRow]⟩).2).2 =
        (validate_claim "L" "P" exLoanDefaulted exBroker exVault "TX" 0
          ⟨[exPolicyRow]⟩).2) :=
  ⟨⟨by decide, by decide⟩,
   claim5_no_duplicate_detection "L" "P" exLoanDefaulted exBroker
     exVault "TX" 0 exPolicyRow (by decide)
     (by norm_num [exLoanDefaulted, exBroker, calculate_vault_loss,
       pytrunc]) rfl rfl rfl rfl
     rfl (by decide)⟩

/-- Witness for C6 at the undefaulted example loan. -/
theorem claim6_not_defaulted_short_circuit_witness :
    exLoanCurrent.is_defaulted = false ∧
    validate_claim "L" "P" exLoanCurrent exBroker exVault "TX" 0 exDB =
      ({ approved := false, claim_payout := 0, vault_loss := 0
         policy_coverage := 0, rejection_reason := some .notDefaulted
         claim_id := none }, exDB) :=
  ⟨by decide,
   claim6_not_defaulted_short_circuit "L" "P" exLoanCurrent exBroker
     exVault "TX" 0 exDB (by decide)⟩

/-- C7.  The risk tier classifier is exactly the spec's threshold
table evaluated strictly top-to-bottom with first match winning, a row
matching only if all three of its conditions hold simultaneously; and
the metric triple `coverage_ratio = 2.5`, `impairment_ratio = 0.0`,
`utilization = 0.3` classifies as `safest` with base rate 1%. -/
theorem claim7_tier_table_first_match :
    (∀ (vault : Vault) (loan_broker : LoanBroker),
      calculate_base_rate vault loan_broker =
        specFirstMatch specTierTable loan_broker.coverage_ratio
          vault.impairment_ratio (get_utilization vault)) ∧
    exBrokerSafest.coverage_ratio = some (5 / 2) ∧
    exVaultSafest.impairment_ratio = 0 ∧
    get_utilization exVaultSafest = 3 / 10 ∧
    calculate_base_rate exVaultSafest exBrokerSafest =
      (1 / 100, .safest) := by
  refine ⟨fun v b => rfl, ?_, ?_, ?_, ?_⟩
  · norm_num [LoanBroker.coverage_ratio, LoanBroker.minimum_cover_required,
      exBrokerSafest, pytrunc]
  · norm_num [Vault.impairment_ratio, exVaultSafest]
  · norm_num [get_utilization, exVaultSafest]
  · norm_num [calculate_base_rate, get_utilization, Vault.impairment_ratio,
      LoanBroker.coverage_ratio, LoanBroker.minimum_cover_required,
      pytrunc, ratioGe, exVaultSafest, exBrokerSafest, BASE_RATES]

/-- C8.  For every escrow on the ledger, `finish` strictly before
`finish_after` fails with `NotYetFinishable` and settles nothing; at or
after `finish_after` — with no upper bound, so including times past
`cancel_after` — `finish` succeeds and the claim's persisted status
becomes `'settled'`; and an escrow no longer on the ledger (already
cancelled or finished) cannot be finished. -/
theorem claim8_escrow_finish_window (cid seq : ℕ) (now : ℤ)
    (ledger : List LedgerEscrowObj) (db : DBState) :
    (∀ o, findEscrow ledger seq = some o → now < o.finish_after →
      finish_escrow cid seq now ledger db = .error .notYetFinishable) ∧
    (∀ o, findEscrow ledger seq = some o → o.finish_after ≤ now →
      ∃ out, finish_escrow cid seq now ledger db = .ok out ∧
        ∀ r ∈ out.1.claims, r.claim_id = cid → r.status = "settled") ∧
    (findEscrow ledger seq = none →
      finish_escrow cid seq now ledger db = .error .notYetFinishable) := by
  refine ⟨?_, ?_, ?_⟩
  · intro o ho hlt
    have h : ¬ o.finish_after ≤ now := not_le.mpr hlt
    simp [finish_escrow, get_escrow_status, ho, h]
  · intro o ho hle
    refine ⟨(update_claim_status db cid "settled",
      ledger.filter (fun x => decide (x.sequence ≠ seq))), ?_, ?_⟩
    · simp [finish_escrow, get_escrow_status, ho, hle]
    · exact update_claim_status_targeted db cid "settled"
  · intro hnone
    simp [finish_escrow, get_escrow_status, hnone]

/-- Witness for C8: too-early finish fails at `now = 50 <
finish_after = 100`; at `now = 250`, past `cancel_after = 200`, finish
succeeds and settles the claim; on an empty ledger (escrow already
consumed) finish fails. -/
theorem claim8_escrow_finish_window_witness :
    (findEscrow exLedger 7 = some exEscrowObj ∧
      (50 : ℤ) < exEscrowObj.finish_after ∧
      finish_escrow 1 7 50 exLedger exClaimsDB =
        .error .notYetFinishable) ∧
    (exEscrowObj.finish_after ≤ (250 : ℤ) ∧
      exEscrowObj.cancel_after < 250 ∧
      ∃ out, finish_escrow 1 7 250 exLedger exClaimsDB = .ok out ∧
        ∀ r ∈ out.1.claims, r.claim_id = 1 → r.status = "settled") ∧
    (findEscrow [] 7 = none ∧
      finish_escrow 1 7 250 [] exClaimsDB = .error .notYetFinishable) :=
  ⟨⟨by decide, by decide,
    (claim8_escrow_finish_window 1 7 50 exLedger exClaimsDB).1
      exEscrowObj (by decide) (by decide)⟩,
   ⟨by decide, by decide,
    (claim8_escrow_finish_window 1 7 250 exLedger exClaimsDB).2.1
      exEscrowObj (by decide) (by decide)⟩,
   ⟨rfl,
    (claim8_escrow_finish_window 1 7 250 [] exClaimsDB).2.2 rfl⟩⟩

/-- C9 counterexample.  The claim says that after any sequence of
`add_exposure` / `withdraw` / `deposit` operations, `total_exposure >
0` implies the stored `coverage_ratio` equals the freshly computed
`available_capital / total_exposure` exactly.  The concrete sequence
`add_policy_exposure 40; deposit_capital 60` on a fresh 100-capital
pool leaves `total_exposure = 40 > 0` with stored ratio `5/2` while
the fresh ratio is `160/40 = 4`: `deposit_capital` goes through
`_update_pool_state`, which never touches the stored column. -/
theorem claim9_counterexample :
    add_policy_exposure (store_pool 100 100) 40 = .ok exPoolMid ∧
    0 < (deposit_capital exPoolMid 60).total_exposure ∧
    ¬ ((deposit_capital exPoolMid 60).coverage_ratio =
        ((deposit_capital exPoolMid 60).available_capital : ℚ) /
          ((deposit_capital exPoolMid 60).total_exposure : ℚ)) := by
  refine ⟨?_, by norm_num [deposit_capital, exPoolMid], ?_⟩
  · norm_num [add_policy_exposure, store_pool, exPoolMid]
  · norm_num [deposit_capital, exPoolMid]

/-- C9 as amended: only the exposure-mutating operations
(`add_policy_exposure` / `remove_policy_exposure`, through
`_update_pool_exposure`) recompute the stored `coverage_ratio` — when
they leave a positive exposure the stored ratio equals
`available_capital / total_exposure` — while `deposit_capital` and
`withdraw_capital` (through `_update_pool_state`) change
`available_capital` and leave the stored ratio untouched, so a
capital operation after an exposure operation leaves it stale. -/
theorem claim9_ratio_recompute_per_operation :
    (∀ (s : PoolState) (amount : ℤ),
      (deposit_capital s amount).coverage_ratio = s.coverage_ratio ∧
      (deposit_capital s amount).available_capital =
        s.available_capital + amount ∧
      (deposit_capital s amount).total_exposure = s.total_exposure) ∧
    (∀ (s : PoolState) (lp_tokens : ℤ) (s2 : PoolState),
      withdraw_capital s lp_tokens = .ok s2 →
      s2.coverage_ratio = s.coverage_ratio ∧
      s2.available_capital = s.available_capital - lp_tokens ∧
      s2.total_exposure = s.total_exposure) ∧
    (∀ (s : PoolState) (coverage_amount : ℤ) (s2 : PoolState),
      add_policy_exposure s coverage_amount = .ok s2 →
      0 < s2.total_exposure →
      s2.coverage_ratio =
        (s2.available_capital : ℚ) / (s2.total_exposure : ℚ)) ∧
    (∀ (s : PoolState) (coverage_amount : ℤ),
      0 < (remove_policy_exposure s coverage_amount).total_exposure →
      (remove_policy_exposure s coverage_amount).coverage_ratio =
        ((remove_policy_exposure s coverage_amount).available_capital :
            ℚ) /
          ((remove_policy_exposure s coverage_amount).total_exposure :
            ℚ)) := by
  refine ⟨fun s amount => ⟨rfl, rfl, rfl⟩, ?_, ?_, ?_⟩
  · intro s lp_tokens s2 h
    simp only [withdraw_capital] at h
    split at h
    · exact absurd h (by simp)
    · injection h with h2
      subst h2
      exact ⟨rfl, rfl, rfl⟩
  · intro s coverage_amount s2 h hpos
    simp only [add_policy_exposure] at h
    split at h
    · exact absurd h (by simp)
    · injection h with h2
      subst h2
      simp only at hpos ⊢
      rw [if_pos hpos]
  · intro s coverage_amount hpos
    simp only [remove_policy_exposure] at hpos ⊢
    rw [if_pos hpos]

/-- Witness for the amended C9: deposit and withdraw leave the stored
ratio of a fresh pool unchanged, `add_policy_exposure 40` stores the
fresh `100/40`, and `remove_policy_exposure 20` restores
`100/20`. -/
theorem claim9_ratio_recompute_per_operation_witness :
    ((deposit_capital (store_pool 100 100) 60).coverage_ratio =
        (store_pool 100 100).coverage_ratio ∧
      (deposit_capital (store_pool 100 100) 60).available_capital =
        (store_pool 100 100).available_capital + 60 ∧
      (deposit_capital (store_pool 100 100) 60).total_exposure =
        (store_pool 100 100).total_exposure) ∧
    (withdraw_capital (store_pool 100 100) 10 =
        .ok exPoolAfterWithdraw ∧
      exPoolAfterWithdraw.coverage_ratio =
        (store_pool 100 100).coverage_ratio ∧
      exPoolAfterWithdraw.available_capital =
        (store_pool 100 100).available_capital - 10 ∧
      exPoolAfterWithdraw.total_exposure =
        (store_pool 100 100).total_exposure) ∧
    (add_policy_exposure (store_pool 100 100) 40 = .ok exPoolMid ∧
      0 < exPoolMid.total_exposure ∧
      exPoolMid.coverage_ratio =
        (exPoolMid.available_capital : ℚ) /
          (exPoolMid.total_exposure : ℚ)) ∧
    (0 < (remove_policy_exposure exPoolMid 20).total_exposure ∧
      (remove_policy_exposure exPoolMid 20).coverage_ratio =
        ((remove_policy_exposure exPoolMid 20).available_capital : ℚ) /
          ((remove_policy_exposure exPoolMid 20).total_exposure : ℚ)) :=
  ⟨claim9_ratio_recompute_per_operation.1 (store_pool 100 100) 60,
   ⟨by norm_num [withdraw_capital, store_pool, exPoolAfterWithdraw],
    claim9_ratio_recompute_per_operation.2.1 (store_pool 100 100) 10
      exPoolAfterWithdraw
      (by norm_num [withdraw_capital, store_pool, exPoolAfterWithdraw])⟩,
   ⟨by norm_num [add_policy_exposure, store_pool, exPoolMid],
    by norm_num [exPoolMid],
    claim9_ratio_recompute_per_operation.2.2.1 (store_pool 100 100) 40
      exPoolMid
      (by norm_num [add_policy_exposure, store_pool, exPoolMid])
      (by norm_num [exPoolMid])⟩,
   ⟨by norm_num [remove_policy_exposure, exPoolMid],
    claim9_ratio_recompute_per_operation.2.2.2 exPoolMid 20
      (by norm_num [remove_policy_exposure, exPoolMid])⟩⟩

/-- C10 (implicit).  For every vault with `assets_total == 0` the
derived metrics `utilization_rate` and `impairment_ratio` return `0`
rather than dividing by zero, and the premium engine's
`_get_utilization` likewise returns `0`, so premium pricing and tier
classification never fault on an empty vault. -/
theorem claim10_empty_vault_metric_guards (v : Vault)
    (h : v.assets_total = 0) :
    v.utilization_rate = 0 ∧ v.impairment_ratio = 0 ∧
      get_utilization v = 0 := by
  simp [Vault.utilization_rate, Vault.impairment_ratio, get_utilization, h]

/-- Witness for C10 at the empty vault. -/
theorem claim10_empty_vault_metric_guards_witness :
    exVaultEmpty.assets_total = 0 ∧
    (exVaultEmpty.utilization_rate = 0 ∧
      exVaultEmpty.impairment_ratio = 0 ∧
      get_utilization exVaultEmpty = 0) :=
  ⟨rfl, claim10_empty_vault_metric_guards exVaultEmpty rfl⟩

end Ward
